import Mathlib

/-!
Verification of the weather dashboard's fetch/normalize/align routine
(`fetch_weather_data` in `weather_app.py`) and of the calling script's
date-range guard, as a shallow embedding in Lean.

Modelling choices:
* Calendar dates at daily granularity are embedded as integers (day numbers);
  `days_from_civil` converts a civil date `(y, m, d)` to its day number so
  concrete calendar inputs stay meaningful.  `pd.date_range(start, end,
  freq="D")` becomes `date_range`, the inclusive ascending list of day
  numbers (empty when `end < start`, exactly as pandas behaves).
* A cell of a weather array is a `Val`: either a rational number or the
  missing-value sentinel `Val.nan` (numpy's NaN).  No arithmetic is ever
  performed on cells, so rationals stand in for the floats.
* The remote interaction (`openmeteo.weather_api`, `responses[0]`,
  `response.Daily()`, `Variables(i).ValuesAsNumpy()`) is abstracted as one
  function `upstream : ApiParams → Except String UpstreamDaily`: it either
  yields the five per-variable arrays or raises (any exception anywhere in
  the remote interaction is the `.error` case).
* `pd.DataFrame(daily_data)` on the six-key dict becomes
  `DataFrame.ofDict`; the bare `pd.DataFrame()` returned by the `except`
  branch becomes `DataFrame.empty` (zero rows, zero columns).
* `fetch_weather_data_run` additionally records, next to the returned
  frame, the list of HTTP requests issued (the single unconditional
  `weather_api` call) and the messages shown via `st.error`, so that
  claims about when a request happens are statable.
-/

/-- A cell of a weather variable array: a number, or numpy's NaN used as the
missing-value sentinel. -/
inductive Val where
  | nan : Val
  | num : ℚ → Val
deriving DecidableEq, Repr

/-- Day number of the civil date `y-m-d` relative to 1970-01-01 (standard
civil-from-days calendar arithmetic, valid for years ≥ 1). -/
def days_from_civil (y m d : Nat) : Int :=
  let yy := if m ≤ 2 then y - 1 else y
  let era := yy / 400
  let yoe := yy % 400
  let mp := (m + 9) % 12
  let doy := (153 * mp + 2) / 5 + d - 1
  let doe := yoe * 365 + yoe / 4 - yoe / 100 + doy
  (era * 146097 + doe : Int) - 719468

/-- `pd.date_range(start=start_date, end=end_date, freq="D")`: the inclusive
ascending daily index, empty when `end_date < start_date`. -/
def date_range (start_date end_date : Int) : List Int :=
  (List.range (end_date - start_date + 1).toNat).map (fun (i : Nat) => start_date + (i : Int))

/-- The query parameters of the HTTP request built in `fetch_weather_data`
(lines 18–25 of `weather_app.py`). -/
structure ApiParams where
  latitude : ℚ
  longitude : ℚ
  start_date : Int
  end_date : Int
  daily : List String
  timezone : String
deriving DecidableEq, Repr

/-- The params dict of `fetch_weather_data`: note the requested window ends at
`end_date + timedelta(days=1)`. -/
def mkParams (latitude longitude : ℚ) (start_date end_date : Int) : ApiParams :=
  { latitude := latitude
    longitude := longitude
    start_date := start_date
    end_date := end_date + 1
    daily := ["temperature_2m_max", "temperature_2m_min", "precipitation_sum",
              "windspeed_10m_max", "relative_humidity_2m_max"]
    timezone := "America/Chicago" }

/-- The five per-variable arrays delivered by a successful upstream response,
`daily.Variables(0).ValuesAsNumpy()` through `daily.Variables(4).ValuesAsNumpy()`. -/
structure UpstreamDaily where
  temperature_2m_max : List Val
  temperature_2m_min : List Val
  precipitation_sum : List Val
  windspeed_10m_max : List Val
  relative_humidity_2m_max : List Val
deriving DecidableEq, Repr

/-- The upstream arrays in the order the source reads them, `Variables(0)`
through `Variables(4)`. -/
def UpstreamDaily.cols (u : UpstreamDaily) : List (List Val) :=
  [u.temperature_2m_max, u.temperature_2m_min, u.precipitation_sum,
   u.windspeed_10m_max, u.relative_humidity_2m_max]

/-- The `daily_data` dict of `fetch_weather_data` (lines 34–41): a date column
plus five value columns. -/
structure DailyData where
  date : List Int
  temperature_max : List Val
  temperature_min : List Val
  precipitation : List Val
  windspeed_max : List Val
  humidity_max : List Val
deriving DecidableEq, Repr

/-- The five value columns of the dict, in source order. -/
def DailyData.valueCols (dd : DailyData) : List (List Val) :=
  [dd.temperature_max, dd.temperature_min, dd.precipitation,
   dd.windspeed_max, dd.humidity_max]

/-- A pandas DataFrame as this program builds them: either the bare
`pd.DataFrame()` (no rows, no columns) or `pd.DataFrame(daily_data)` on the
six-key dict. -/
inductive DataFrame where
  | empty : DataFrame
  | ofDict : DailyData → DataFrame
deriving DecidableEq, Repr

/-- Number of rows: the common column length (the date column is the index). -/
def DataFrame.numRows : DataFrame → Nat
  | .empty => 0
  | .ofDict dd => dd.date.length

/-- Number of columns: the bare frame has none, the dict frame has six. -/
def DataFrame.numCols : DataFrame → Nat
  | .empty => 0
  | .ofDict _ => 6

/-- The date column of the frame. -/
def DataFrame.dates : DataFrame → List Int
  | .empty => []
  | .ofDict dd => dd.date

/-- The five value columns of the frame, in source order. -/
def DataFrame.valueCols : DataFrame → List (List Val)
  | .empty => []
  | .ofDict dd => dd.valueCols

/-- pandas `DataFrame.empty`: true when either axis has length zero. -/
def DataFrame.isEmpty (df : DataFrame) : Bool :=
  df.numRows = 0 || df.numCols = 0

/-- The numpy slice `xs[:n]` applied to each array at dict construction
(lines 36–40). -/
def slice_col (n : Nat) (xs : List Val) : List Val :=
  xs.take n

/-- The padding step of the loop at lines 43–45:
`np.pad(xs, (0, n - len(xs)), 'constant', constant_values=np.nan)` when
`len(xs) < n`, and the array unchanged otherwise. -/
def pad_col (n : Nat) (xs : List Val) : List Val :=
  if xs.length < n then xs ++ List.replicate (n - xs.length) Val.nan else xs

/-- Lines 32–47 of `fetch_weather_data` after a successful response: build the
date index, slice every array to the index length, pad short arrays at the
tail with NaN. -/
def assemble (start_date end_date : Int) (u : UpstreamDaily) : DailyData :=
  let dr := date_range start_date end_date
  let n := dr.length
  { date := dr
    temperature_max := pad_col n (slice_col n u.temperature_2m_max)
    temperature_min := pad_col n (slice_col n u.temperature_2m_min)
    precipitation := pad_col n (slice_col n u.precipitation_sum)
    windspeed_max := pad_col n (slice_col n u.windspeed_10m_max)
    humidity_max := pad_col n (slice_col n u.relative_humidity_2m_max) }

/-- Trace of one call to `fetch_weather_data`: the returned frame, the HTTP
requests issued, and the messages shown via `st.error`. -/
structure FetchTrace where
  result : DataFrame
  requests : List ApiParams
  errors : List String
deriving DecidableEq, Repr

/-- `fetch_weather_data` (lines 16–50), with its observable I/O recorded.  The
params are built and the single `weather_api` request is issued
unconditionally — there is no local validation of the range.  On success the
assembled dict becomes the frame; on any exception the function shows an
error message and returns the bare empty frame. -/
def fetch_weather_data_run (upstream : ApiParams → Except String UpstreamDaily)
    (latitude longitude : ℚ) (start_date end_date : Int) : FetchTrace :=
  let params := mkParams latitude longitude start_date end_date
  match upstream params with
  | .ok u =>
      { result := DataFrame.ofDict (assemble start_date end_date u)
        requests := [params]
        errors := [] }
  | .error msg =>
      { result := DataFrame.empty
        requests := [params]
        errors := ["Error fetching data: " ++ msg] }

/-- The value `fetch_weather_data` returns to its caller. -/
def fetch_weather_data (upstream : ApiParams → Except String UpstreamDaily)
    (latitude longitude : ℚ) (start_date end_date : Int) : DataFrame :=
  (fetch_weather_data_run upstream latitude longitude start_date end_date).result

/-- The fetch as section 7 of the spec words it: on network/API failure the
fetch fails with a `RemoteFetchError` propagated to the caller instead of
returning a value.  Stated here only to compare against the source's
`fetch_weather_data`, which never propagates. -/
inductive RemoteFetchError where
  | remote : String → RemoteFetchError
deriving DecidableEq, Repr

/-- The spec's wording of the fetch contract (sections 4.1 and 7): a
successful fetch returns the assembled series, a network/API failure
propagates a `RemoteFetchError` to the caller. -/
def fetch_spec_propagating (upstream : ApiParams → Except String UpstreamDaily)
    (latitude longitude : ℚ) (start_date end_date : Int) :
    Except RemoteFetchError DataFrame :=
  match upstream (mkParams latitude longitude start_date end_date) with
  | .ok u => .ok (DataFrame.ofDict (assemble start_date end_date u))
  | .error msg => .error (RemoteFetchError.remote msg)

/-- Outcome of the calling script after the date-range widget: `st.stop()` on
a missing range (line 65), `st.stop()` when a fetched frame is empty
(line 76), or the three frames reaching the rendering code. -/
inductive AppOutcome where
  | stopped_missing_range : AppOutcome
  | stopped_no_data : AppOutcome
  | rendered : DataFrame → DataFrame → DataFrame → AppOutcome
deriving DecidableEq, Repr

/-- Run of the calling script: its outcome, every HTTP request issued by the
fetches it invoked, and the warnings shown. -/
structure AppRun where
  outcome : AppOutcome
  fetch_calls : List ApiParams
  warnings : List String
deriving DecidableEq, Repr

/-- Lines 61–76 of the script: the guard on the date-range selection, the
three per-city fetches, and the emptiness check.  `selection` is the list of
dates the `st.date_input` widget returned. -/
def app_after_date_input (upstream : ApiParams → Except String UpstreamDaily)
    (selection : List Int) : AppRun :=
  if selection.length = 2 then
    let s := selection.getD 0 0
    let e := selection.getD 1 0
    let dallas := fetch_weather_data_run upstream 32.7767 (-96.7970) s e
    let orlando := fetch_weather_data_run upstream 28.5383 (-81.3792) s e
    let omaha := fetch_weather_data_run upstream 41.2565 (-95.9345) s e
    let calls := dallas.requests ++ orlando.requests ++ omaha.requests
    if dallas.result.isEmpty || orlando.result.isEmpty || omaha.result.isEmpty then
      { outcome := AppOutcome.stopped_no_data
        fetch_calls := calls
        warnings := ["No data available for the selected date range. Please try a different range."] }
    else
      { outcome := AppOutcome.rendered dallas.result orlando.result omaha.result
        fetch_calls := calls
        warnings := [] }
  else
    { outcome := AppOutcome.stopped_missing_range
      fetch_calls := []
      warnings := ["Please select both start and end dates."] }

/-! ### Concrete upstream sources used in witnesses and counterexamples -/

/-- An upstream source delivering full-length arrays for a three-day range. -/
def uFullData : UpstreamDaily :=
  { temperature_2m_max := [Val.num 30, Val.num 31, Val.num 32]
    temperature_2m_min := [Val.num 16, Val.num 17, Val.num 18]
    precipitation_sum := [Val.num 0, Val.num 4, Val.num 1]
    windspeed_10m_max := [Val.num 12, Val.num 13, Val.num 14]
    relative_humidity_2m_max := [Val.num 60, Val.num 61, Val.num 62] }

/-- An upstream that always answers with `uFullData`. -/
def uFull : ApiParams → Except String UpstreamDaily :=
  fun _ => Except.ok uFullData

/-- An upstream response whose first variable array is one entry short of a
three-day range while the other four are full length. -/
def uShortData : UpstreamDaily :=
  { temperature_2m_max := [Val.num 7]
    temperature_2m_min := [Val.num 1, Val.num 2, Val.num 3]
    precipitation_sum := [Val.num 0, Val.num 5, Val.num 2]
    windspeed_10m_max := [Val.num 20, Val.num 21, Val.num 22]
    relative_humidity_2m_max := [Val.num 80, Val.num 81, Val.num 82] }

/-- An upstream that always answers with `uShortData`. -/
def uShort : ApiParams → Except String UpstreamDaily :=
  fun _ => Except.ok uShortData

/-- An upstream response whose first variable array is one entry longer than
a one-day range. -/
def uLongData : UpstreamDaily :=
  { temperature_2m_max := [Val.num 1, Val.num 2]
    temperature_2m_min := [Val.num 0]
    precipitation_sum := [Val.num 0]
    windspeed_10m_max := [Val.num 0]
    relative_humidity_2m_max := [Val.num 0] }

/-- An upstream that always answers with `uLongData`. -/
def uLong : ApiParams → Except String UpstreamDaily :=
  fun _ => Except.ok uLongData

/-- An upstream whose request always raises (network failure). -/
def uFail : ApiParams → Except String UpstreamDaily :=
  fun _ => Except.error "network down"

/-- The upstream response of the spec's worked example: the first variable
two days long, the other four covering all three days. -/
def u_c6_data : UpstreamDaily :=
  { temperature_2m_max := [Val.num 10, Val.num 11]
    temperature_2m_min := [Val.num 1, Val.num 2, Val.num 3]
    precipitation_sum := [Val.num 0, Val.num 5, Val.num 2]
    windspeed_10m_max := [Val.num 20, Val.num 21, Val.num 22]
    relative_humidity_2m_max := [Val.num 80, Val.num 81, Val.num 82] }

/-- An upstream that always answers with `u_c6_data`. -/
def u_c6 : ApiParams → Except String UpstreamDaily :=
  fun _ => Except.ok u_c6_data

/-! ### Helper lemmas about the date index and the slice/pad pipeline -/

lemma length_date_range (s e : Int) :
    (date_range s e).length = (e - s + 1).toNat := by
  simp [date_range]

lemma date_range_getD (s e : Int) (i : Nat) (h : i < (date_range s e).length) :
    (date_range s e).getD i 0 = s + i := by
  unfold date_range at h ⊢
  rw [List.getD_eq_getElem _ _ h, List.getElem_map, List.getElem_range]

lemma pad_slice_short (n : Nat) (xs : List Val) (h : xs.length < n) :
    pad_col n (slice_col n xs) = xs ++ List.replicate (n - xs.length) Val.nan := by
  have ht : slice_col n xs = xs := List.take_of_length_le (Nat.le_of_lt h)
  rw [ht]
  simp [pad_col, h]

lemma pad_slice_long (n : Nat) (xs : List Val) (h : n ≤ xs.length) :
    pad_col n (slice_col n xs) = xs.take n := by
  have hlen : (xs.take n).length = n := by
    simp [List.length_take, Nat.min_eq_left h]
  simp [pad_col, slice_col, hlen]

lemma length_pad_slice (n : Nat) (xs : List Val) :
    (pad_col n (slice_col n xs)).length = n := by
  by_cases h : xs.length < n
  · rw [pad_slice_short n xs h]
    simp [List.length_append, List.length_replicate]
    omega
  · rw [pad_slice_long n xs (Nat.le_of_not_lt h)]
    simp [List.length_take]
    omega

lemma getD_pad_slice_lt (n : Nat) (xs : List Val) (i : Nat)
    (h1 : i < n) (h2 : i < xs.length) :
    (pad_col n (slice_col n xs)).getD i Val.nan = xs.getD i Val.nan := by
  by_cases h : xs.length < n
  · rw [pad_slice_short n xs h, List.getD_append _ _ _ _ h2]
  · rw [pad_slice_long n xs (Nat.le_of_not_lt h)]
    have hlt : i < (xs.take n).length := by
      simp [List.length_take]
      omega
    rw [List.getD_eq_getElem _ _ hlt, List.getElem_take, List.getD_eq_getElem _ _ h2]

lemma getD_pad_tail (n : Nat) (xs : List Val) (i : Nat) (d : Val)
    (hx : xs.length ≤ i) (hn : i < n) :
    (xs ++ List.replicate (n - xs.length) Val.nan).getD i d = Val.nan := by
  have hrep : i - xs.length < (List.replicate (n - xs.length) Val.nan).length := by
    simp [List.length_replicate]
    omega
  rw [List.getD_append_right _ _ _ _ hx, List.getD_eq_getElem _ _ hrep,
    List.getElem_replicate]

lemma pad_slice_short_spec (n : Nat) (xs : List Val) (h : xs.length < n) :
    (pad_col n (slice_col n xs)).length = n ∧
    (∀ i : Nat, i < xs.length →
      (pad_col n (slice_col n xs)).getD i Val.nan = xs.getD i Val.nan) ∧
    (∀ i : Nat, xs.length ≤ i → i < n →
      (pad_col n (slice_col n xs)).getD i (Val.num 0) = Val.nan) ∧
    pad_col n (slice_col n xs) = xs ++ List.replicate (n - xs.length) Val.nan := by
  refine ⟨length_pad_slice n xs, ?_, ?_, pad_slice_short n xs h⟩
  · intro i hi
    exact getD_pad_slice_lt n xs i (Nat.lt_of_lt_of_le hi (Nat.le_of_lt h)) hi
  · intro i hx hn
    rw [pad_slice_short n xs h]
    exact getD_pad_tail n xs i (Val.num 0) hx hn

lemma fetch_ok_eq (upstream : ApiParams → Except String UpstreamDaily)
    (lat lon : ℚ) (s e : Int) (u : UpstreamDaily)
    (hok : upstream (mkParams lat lon s e) = Except.ok u) :
    fetch_weather_data upstream lat lon s e =
      DataFrame.ofDict (assemble s e u) := by
  simp [fetch_weather_data, fetch_weather_data_run, hok]

/-! ### Claim theorems -/

/-- C1: for every valid input with `start_date ≤ end_date`, a successful
`fetch_weather_data` returns a table with exactly `end_date − start_date + 1`
rows whose date column is the contiguous daily calendar from `start_date` to
`end_date`, ascending with no gaps. -/
theorem fetch_success_contiguous_daily_index
    (upstream : ApiParams → Except String UpstreamDaily) (lat lon : ℚ)
    (s e : Int) (u : UpstreamDaily)
    (hle : s ≤ e)
    (hok : upstream (mkParams lat lon s e) = Except.ok u) :
    (fetch_weather_data upstream lat lon s e).numRows = (e - s + 1).toNat ∧
    ((fetch_weather_data upstream lat lon s e).numRows : Int) = e - s + 1 ∧
    (fetch_weather_data upstream lat lon s e).dates.length =
      (fetch_weather_data upstream lat lon s e).numRows ∧
    (∀ i : Nat, i < (fetch_weather_data upstream lat lon s e).numRows →
      (fetch_weather_data upstream lat lon s e).dates.getD i 0 = s + i) := by
  rw [fetch_ok_eq upstream lat lon s e u hok]
  have hrows : (DataFrame.ofDict (assemble s e u)).numRows = (date_range s e).length := by
    simp [DataFrame.numRows, assemble]
  have hdates : (DataFrame.ofDict (assemble s e u)).dates = date_range s e := by
    simp [DataFrame.dates, assemble]
  refine ⟨?_, ?_, ?_, ?_⟩
  · rw [hrows, length_date_range]
  · rw [hrows, length_date_range, Int.toNat_of_nonneg (by omega)]
  · rw [hrows, hdates]
  · intro i hi
    rw [hrows] at hi
    rw [hdates]
    exact date_range_getD s e i hi

/-- C1 witness: the contiguity theorem applied at the concrete range 0..2
with a full upstream response. -/
theorem fetch_success_contiguous_daily_index_witness :
    (fetch_weather_data uFull 0 0 0 2).numRows = ((2:Int) - 0 + 1).toNat ∧
    ((fetch_weather_data uFull 0 0 0 2).numRows : Int) = 2 - 0 + 1 ∧
    (fetch_weather_data uFull 0 0 0 2).dates.length =
      (fetch_weather_data uFull 0 0 0 2).numRows ∧
    (∀ i : Nat, i < (fetch_weather_data uFull 0 0 0 2).numRows →
      (fetch_weather_data uFull 0 0 0 2).dates.getD i 0 = 0 + i) :=
  fetch_success_contiguous_daily_index uFull 0 0 0 2 uFullData (by omega) rfl

/-- C2: every upstream variable array shorter than the date index is padded to
the index length, original entries unchanged in place, every appended tail
entry the NaN sentinel, and the padding is purely a tail append. -/
theorem padding_short_arrays_tail_nan
    (upstream : ApiParams → Except String UpstreamDaily) (lat lon : ℚ)
    (s e : Int) (u : UpstreamDaily)
    (hok : upstream (mkParams lat lon s e) = Except.ok u) :
    ∀ p ∈ List.zip u.cols (fetch_weather_data upstream lat lon s e).valueCols,
      p.1.length < (date_range s e).length →
      (p.2.length = (date_range s e).length ∧
       (∀ i : Nat, i < p.1.length → p.2.getD i Val.nan = p.1.getD i Val.nan) ∧
       (∀ i : Nat, p.1.length ≤ i → i < (date_range s e).length →
         p.2.getD i (Val.num 0) = Val.nan) ∧
       p.2 = p.1 ++ List.replicate ((date_range s e).length - p.1.length) Val.nan) := by
  rw [fetch_ok_eq upstream lat lon s e u hok]
  intro p hp hshort
  simp only [DataFrame.valueCols, DailyData.valueCols, assemble, UpstreamDaily.cols,
    List.zip, List.zipWith, List.mem_cons, List.not_mem_nil, or_false] at hp
  rcases hp with h | h | h | h | h <;> subst h <;>
    exact pad_slice_short_spec _ _ hshort

/-- C2 witness: the padding theorem applied to the short first variable of
`uShortData` over the three-day range 0..2. -/
theorem padding_short_arrays_tail_nan_witness :
    ([Val.num 7, Val.nan, Val.nan] : List Val).length = (date_range 0 2).length ∧
    ([Val.num 7, Val.nan, Val.nan] : List Val).getD 0 Val.nan =
      ([Val.num 7] : List Val).getD 0 Val.nan ∧
    ([Val.num 7, Val.nan, Val.nan] : List Val).getD 2 (Val.num 0) = Val.nan ∧
    ([Val.num 7, Val.nan, Val.nan] : List Val) =
      [Val.num 7] ++
        List.replicate ((date_range 0 2).length - ([Val.num 7] : List Val).length) Val.nan := by
  have h := padding_short_arrays_tail_nan uShort 0 0 0 2 uShortData rfl
    ([Val.num 7], [Val.num 7, Val.nan, Val.nan]) (by decide) (by decide)
  exact ⟨h.1, h.2.1 0 (by decide), h.2.2.1 2 (by decide) (by decide), h.2.2.2⟩

/-- C3 counterexample: on a failing upstream the source's
`fetch_weather_data` returns a value (the bare empty frame) to its caller,
while the spec's propagating contract would have delivered a
`RemoteFetchError`; the claim that the error propagates is false of the
code. -/
theorem fetch_failure_propagates_counterexample :
    fetch_weather_data uFail 0 0 0 2 = DataFrame.empty ∧
    fetch_spec_propagating uFail 0 0 0 2 =
      Except.error (RemoteFetchError.remote "network down") := by
  constructor <;> rfl

/-- C3 amended: on any network/API failure `fetch_weather_data` catches the
exception, shows an error message, and returns the bare empty frame — it
propagates nothing; the caller must detect the empty frame. -/
theorem fetch_failure_caught_and_empty
    (upstream : ApiParams → Except String UpstreamDaily) (lat lon : ℚ)
    (s e : Int) (msg : String)
    (herr : upstream (mkParams lat lon s e) = Except.error msg) :
    (fetch_weather_data_run upstream lat lon s e).result = DataFrame.empty ∧
    (fetch_weather_data_run upstream lat lon s e).errors =
      ["Error fetching data: " ++ msg] := by
  simp [fetch_weather_data_run, herr]

/-- C3 witness: the amended theorem at the failing upstream `uFail`. -/
theorem fetch_failure_caught_and_empty_witness :
    (fetch_weather_data_run uFail 0 0 0 2).result = DataFrame.empty ∧
    (fetch_weather_data_run uFail 0 0 0 2).errors =
      ["Error fetching data: " ++ "network down"] :=
  fetch_failure_caught_and_empty uFail 0 0 0 2 "network down" rfl

/-- C4 counterexample: with `end_date < start_date` (start 5, end 3) the
fetch still issues its upstream request and still returns a frame; nothing
is rejected before the network call. -/
theorem inverted_range_still_requests_counterexample :
    (fetch_weather_data_run uFull 0 0 5 3).requests = [mkParams 0 0 5 3] ∧
    (fetch_weather_data_run uFull 0 0 5 3).requests ≠ [] ∧
    (fetch_weather_data uFull 0 0 5 3).numCols = 6 := by
  refine ⟨rfl, by decide, rfl⟩

/-- C4 amended: the fetch performs no local range validation: the single
upstream request is issued even when `end_date < start_date`, and a
successful call on such an inverted range returns a six-column frame with
zero rows (which the caller then treats as empty). -/
theorem inverted_range_requests_and_zero_rows
    (upstream : ApiParams → Except String UpstreamDaily) (lat lon : ℚ)
    (s e : Int) (u : UpstreamDaily)
    (hinv : e < s)
    (hok : upstream (mkParams lat lon s e) = Except.ok u) :
    (fetch_weather_data_run upstream lat lon s e).requests = [mkParams lat lon s e] ∧
    (fetch_weather_data upstream lat lon s e).numRows = 0 ∧
    (fetch_weather_data upstream lat lon s e).numCols = 6 ∧
    (fetch_weather_data upstream lat lon s e).isEmpty = true := by
  have hn : (date_range s e).length = 0 := by
    rw [length_date_range]
    omega
  have hreq : (fetch_weather_data_run upstream lat lon s e).requests =
      [mkParams lat lon s e] := by
    simp [fetch_weather_data_run, hok]
  have hrows : (fetch_weather_data upstream lat lon s e).numRows = 0 := by
    rw [fetch_ok_eq upstream lat lon s e u hok]
    simp [DataFrame.numRows, assemble, hn]
  have hcols : (fetch_weather_data upstream lat lon s e).numCols = 6 := by
    rw [fetch_ok_eq upstream lat lon s e u hok]
    simp [DataFrame.numCols]
  refine ⟨hreq, hrows, hcols, ?_⟩
  simp [DataFrame.isEmpty, hrows]

/-- C4 witness: the amended theorem at the inverted range 5..3. -/
theorem inverted_range_requests_and_zero_rows_witness :
    (fetch_weather_data_run uFull 0 0 5 3).requests = [mkParams 0 0 5 3] ∧
    (fetch_weather_data uFull 0 0 5 3).numRows = 0 ∧
    (fetch_weather_data uFull 0 0 5 3).numCols = 6 ∧
    (fetch_weather_data uFull 0 0 5 3).isEmpty = true :=
  inverted_range_requests_and_zero_rows uFull 0 0 5 3 uFullData (by omega) rfl

/-- C5 counterexample: over the one-day range 0..0 the first upstream array
of `uLongData` has two entries, yet the resulting column keeps only one —
the fetch silently shortens arrays longer than the date index, refuting the
claim that arrays are never truncated. -/
theorem long_array_silently_shortened_counterexample :
    uLongData.temperature_2m_max.length = 2 ∧
    (date_range 0 0).length = 1 ∧
    ((fetch_weather_data uLong 0 0 0 0).valueCols.getD 0 []).length = 1 ∧
    Val.num 2 ∈ uLongData.temperature_2m_max ∧
    Val.num 2 ∉ (fetch_weather_data uLong 0 0 0 0).valueCols.getD 0 [] := by
  decide

/-- C5 amended: within the date range every upstream value is preserved in
its position, but an upstream array longer than the date index is silently
truncated by the slice to the first `n` entries (it is not an error, and
nothing past the index survives). -/
theorem fetch_cols_preserve_and_truncate
    (upstream : ApiParams → Except String UpstreamDaily) (lat lon : ℚ)
    (s e : Int) (u : UpstreamDaily)
    (hok : upstream (mkParams lat lon s e) = Except.ok u) :
    ∀ p ∈ List.zip u.cols (fetch_weather_data upstream lat lon s e).valueCols,
      ((date_range s e).length ≤ p.1.length →
        p.2 = p.1.take (date_range s e).length) ∧
      (∀ i : Nat, i < (date_range s e).length → i < p.1.length →
        p.2.getD i Val.nan = p.1.getD i Val.nan) := by
  rw [fetch_ok_eq upstream lat lon s e u hok]
  intro p hp
  simp only [DataFrame.valueCols, DailyData.valueCols, assemble, UpstreamDaily.cols,
    List.zip, List.zipWith, List.mem_cons, List.not_mem_nil, or_false] at hp
  rcases hp with h | h | h | h | h <;> subst h <;>
    exact ⟨fun hle => pad_slice_long _ _ hle, fun i h1 h2 => getD_pad_slice_lt _ _ i h1 h2⟩

/-- C5 witness: the amended theorem applied to the over-long first variable
of `uLongData` over the one-day range 0..0. -/
theorem fetch_cols_preserve_and_truncate_witness :
    ([Val.num 1] : List Val) =
      ([Val.num 1, Val.num 2] : List Val).take (date_range 0 0).length ∧
    ([Val.num 1] : List Val).getD 0 Val.nan =
      ([Val.num 1, Val.num 2] : List Val).getD 0 Val.nan := by
  have h := fetch_cols_preserve_and_truncate uLong 0 0 0 0 uLongData rfl
    ([Val.num 1, Val.num 2], [Val.num 1]) (by decide)
  exact ⟨h.1 (by decide), h.2 0 (by decide) (by decide)⟩

/-- C6: for start 2024-01-01 and end 2024-01-03, with the first variable two
days long upstream and the other four full, the fetch returns exactly three
rows; the short variable holds its two upstream values then the NaN
sentinel, the others hold their upstream values in all three rows. -/
theorem fetch_jan2024_short_variable_padded :
    fetch_weather_data u_c6 32.7767 (-96.7970)
        (days_from_civil 2024 1 1) (days_from_civil 2024 1 3) =
      DataFrame.ofDict
        { date := [days_from_civil 2024 1 1, days_from_civil 2024 1 2,
                   days_from_civil 2024 1 3]
          temperature_max := [Val.num 10, Val.num 11, Val.nan]
          temperature_min := [Val.num 1, Val.num 2, Val.num 3]
          precipitation := [Val.num 0, Val.num 5, Val.num 2]
          windspeed_max := [Val.num 20, Val.num 21, Val.num 22]
          humidity_max := [Val.num 80, Val.num 81, Val.num 82] } ∧
    (fetch_weather_data u_c6 32.7767 (-96.7970)
        (days_from_civil 2024 1 1) (days_from_civil 2024 1 3)).numRows = 3 := by
  constructor <;> decide

/-- C7: two successful calls with the same coordinate and date range return
frames of identical row count and identical date index, whatever arrays each
upstream response carried. -/
theorem fetch_shape_deterministic
    (u1 u2 : ApiParams → Except String UpstreamDaily) (lat lon : ℚ)
    (s e : Int) (d1 d2 : UpstreamDaily)
    (h1 : u1 (mkParams lat lon s e) = Except.ok d1)
    (h2 : u2 (mkParams lat lon s e) = Except.ok d2) :
    (fetch_weather_data u1 lat lon s e).numRows =
      (fetch_weather_data u2 lat lon s e).numRows ∧
    (fetch_weather_data u1 lat lon s e).dates =
      (fetch_weather_data u2 lat lon s e).dates := by
  rw [fetch_ok_eq u1 lat lon s e d1 h1, fetch_ok_eq u2 lat lon s e d2 h2]
  constructor <;> simp [DataFrame.numRows, DataFrame.dates, assemble]

/-- C7 witness: the shape theorem for two upstreams answering with different
arrays (`uFullData` and `u_c6_data`) over the range 0..2. -/
theorem fetch_shape_deterministic_witness :
    (fetch_weather_data uFull 0 0 0 2).numRows =
      (fetch_weather_data u_c6 0 0 0 2).numRows ∧
    (fetch_weather_data uFull 0 0 0 2).dates =
      (fetch_weather_data u_c6 0 0 0 2).dates :=
  fetch_shape_deterministic uFull u_c6 0 0 0 2 uFullData u_c6_data rfl rfl

/-- C8: whenever the date-range widget returns fewer than two dates, the
script stops with the prompt for a valid range and no fetch — hence no HTTP
request — is invoked for any city. -/
theorem missing_date_range_stops_before_fetch
    (upstream : ApiParams → Except String UpstreamDaily) (selection : List Int)
    (h : selection.length < 2) :
    (app_after_date_input upstream selection).outcome =
      AppOutcome.stopped_missing_range ∧
    (app_after_date_input upstream selection).fetch_calls = [] ∧
    (app_after_date_input upstream selection).warnings =
      ["Please select both start and end dates."] := by
  have hne : ¬ selection.length = 2 := by omega
  simp [app_after_date_input, hne]

/-- C8 witness: the guard theorem for a selection holding a single date. -/
theorem missing_date_range_stops_before_fetch_witness :
    (app_after_date_input uFull [0]).outcome =
      AppOutcome.stopped_missing_range ∧
    (app_after_date_input uFull [0]).fetch_calls = [] ∧
    (app_after_date_input uFull [0]).warnings =
      ["Please select both start and end dates."] :=
  missing_date_range_stops_before_fetch uFull [0] (by decide)

/-- C9: if the upstream interaction raises, `fetch_weather_data` returns the
completely empty frame — zero rows and zero columns — never a partially
filled table. -/
theorem fetch_exception_fully_empty
    (upstream : ApiParams → Except String UpstreamDaily) (lat lon : ℚ)
    (s e : Int) (msg : String)
    (herr : upstream (mkParams lat lon s e) = Except.error msg) :
    fetch_weather_data upstream lat lon s e = DataFrame.empty ∧
    (fetch_weather_data upstream lat lon s e).numRows = 0 ∧
    (fetch_weather_data upstream lat lon s e).numCols = 0 := by
  have hdf : fetch_weather_data upstream lat lon s e = DataFrame.empty := by
    simp [fetch_weather_data, fetch_weather_data_run, herr]
  rw [hdf]
  exact ⟨rfl, rfl, rfl⟩

/-- C9 witness: the empty-on-exception theorem at the failing upstream. -/
theorem fetch_exception_fully_empty_witness :
    fetch_weather_data uFail 1 7 0 2 = DataFrame.empty ∧
    (fetch_weather_data uFail 1 7 0 2).numRows = 0 ∧
    (fetch_weather_data uFail 1 7 0 2).numCols = 0 :=
  fetch_exception_fully_empty uFail 1 7 0 2 "network down" rfl

/-- C10: every call requests the upstream window ending at `end_date + 1`
(one day past the caller's inclusive range), and a variable array covering
that longer window is cut back to the date index by the slice, discarding
the extra day's value. -/
theorem request_window_one_day_longer
    (upstream : ApiParams → Except String UpstreamDaily) (lat lon : ℚ)
    (s e : Int) (u : UpstreamDaily)
    (hok : upstream (mkParams lat lon s e) = Except.ok u) :
    (fetch_weather_data_run upstream lat lon s e).requests =
      [mkParams lat lon s e] ∧
    (mkParams lat lon s e).end_date = e + 1 ∧
    (∀ p ∈ List.zip u.cols (fetch_weather_data upstream lat lon s e).valueCols,
      p.1.length = (date_range s e).length + 1 →
      p.2 = p.1.take (date_range s e).length) := by
  refine ⟨by simp [fetch_weather_data_run, hok], rfl, ?_⟩
  rw [fetch_ok_eq upstream lat lon s e u hok]
  intro p hp hlen
  have hle : (date_range s e).length ≤ p.1.length := by omega
  simp only [DataFrame.valueCols, DailyData.valueCols, assemble, UpstreamDaily.cols,
    List.zip, List.zipWith, List.mem_cons, List.not_mem_nil, or_false] at hp
  rcases hp with h | h | h | h | h <;> subst h <;>
    exact pad_slice_long _ _ hle

/-- C10 witness: the window theorem at the range 0..0 with `uLongData`,
whose first array carries the extra day that gets discarded. -/
theorem request_window_one_day_longer_witness :
    (fetch_weather_data_run uLong 0 0 0 0).requests = [mkParams 0 0 0 0] ∧
    (mkParams (0:ℚ) (0:ℚ) 0 0).end_date = 0 + 1 ∧
    ([Val.num 1] : List Val) =
      ([Val.num 1, Val.num 2] : List Val).take (date_range 0 0).length := by
  have h := request_window_one_day_longer uLong 0 0 0 0 uLongData rfl
  exact ⟨h.1, h.2.1, h.2.2 ([Val.num 1, Val.num 2], [Val.num 1]) (by decide) (by decide)⟩
